import Mathlib

/-!
Verification development for the grid layout / collision-resolution engine of
the gauge-flex-studio dashboard. The engine lives in
`src/components/dashboard/GridLayoutManager.tsx` (layout store, snapping,
collision resolver) with divergent sibling variants of the same module among
the repository's files; coordinates are modelled with exact rational
arithmetic and the layout map as an insertion-ordered association list, which
is the iteration order of a JavaScript `Map`.
-/

namespace GaugeFlex

/-- A widget rectangle as stored in the layout map (`WidgetPosition` in
GridLayoutManager.tsx): an id and the rectangle fields. -/
structure WidgetPosition where
  id : String
  x : ℚ
  y : ℚ
  width : ℚ
  height : ℚ
deriving DecidableEq, Repr

/-- Models TypeScript `Partial<WidgetPosition>`: every field optional; an
absent field leaves the current value unchanged under object spread. -/
structure WidgetPatch where
  id? : Option String := none
  x? : Option ℚ := none
  y? : Option ℚ := none
  width? : Option ℚ := none
  height? : Option ℚ := none
deriving DecidableEq, Repr

/-- The object spread `{ ...current, ...patch }`. -/
def mergePos (current : WidgetPosition) (patch : WidgetPatch) : WidgetPosition :=
  { id := patch.id?.getD current.id
    x := patch.x?.getD current.x
    y := patch.y?.getD current.y
    width := patch.width?.getD current.width
    height := patch.height?.getD current.height }

/-- A full position passed where `Partial<WidgetPosition>` is expected. -/
def toPatch (p : WidgetPosition) : WidgetPatch :=
  { id? := some p.id, x? := some p.x, y? := some p.y,
    width? := some p.width, height? := some p.height }

/-- The layout store: the `Map<string, WidgetPosition>` held by
GridLayoutProvider, as an insertion-ordered association list. -/
abbrev Layout := List (String × WidgetPosition)

/-- `Map.get`: the value at a key. -/
def getW : Layout → String → Option WidgetPosition
  | [], _ => none
  | (k, w) :: rest, id => if k = id then some w else getW rest id

/-- `Map.set`: overwrite the existing entry in place, or append a new one. -/
def setW : Layout → String → WidgetPosition → Layout
  | [], id, p => [(id, p)]
  | (k, w) :: rest, id, p =>
    if k = id then (k, p) :: rest else (k, w) :: setW rest id p

/-- `Set.has` over a set of widget ids. -/
def hasId : List String → String → Bool
  | [], _ => false
  | s :: rest, id => if s = id then true else hasId rest id

/-- registerWidget (GridLayoutManager.tsx 52-58): `newWidgets.set(id, position)`,
an upsert with last write winning. -/
def registerWidget (W : Layout) (id : String) (position : WidgetPosition) : Layout :=
  setW W id position

/-- updateWidget (GridLayoutManager.tsx 60-69): merge the patch into the
current entry when the id is present, otherwise return the map unchanged. -/
def updateWidget (W : Layout) (id : String) (newPosition : WidgetPatch) : Layout :=
  match getW W id with
  | some current => setW W id (mergePos current newPosition)
  | none => W

/-- removeWidget (GridLayoutManager.tsx 71-77): `newWidgets.delete(id)`. -/
def removeWidget (W : Layout) (id : String) : Layout :=
  W.filter (fun e => !(decide (e.1 = id)))

/-- The rectangle-overlap test, as inlined in checkCollision and
preventOverlap (GridLayoutManager.tsx 90-95) and standalone as checkOverlap in
the Dashboard variant (src/unnamed/part_003 33-40):
`!(a.x >= b.x + b.width || a.x + a.width <= b.x || a.y >= b.y + b.height || a.y + a.height <= b.y)`. -/
def checkOverlap (a b : WidgetPosition) : Bool :=
  !(decide (a.x ≥ b.x + b.width) || decide (a.x + a.width ≤ b.x) ||
    decide (a.y ≥ b.y + b.height) || decide (a.y + a.height ≤ b.y))

/-- checkCollision (GridLayoutManager.tsx 79-103): all other widgets
overlapping the proposed rectangle, or `null` when none (or the id is
unknown). -/
def checkCollision (W : Layout) (id : String) (newPosition : WidgetPatch) :
    Option (List WidgetPosition) :=
  match getW W id with
  | none => none
  | some current =>
    let proposed := mergePos current newPosition
    let collidingWidgets :=
      (W.filter (fun e => !(decide (e.1 = id)) && checkOverlap proposed e.2)).map Prod.snd
    if collidingWidgets.length > 0 then some collidingWidgets else none

/-- snapToGrid (GridLayoutManager.tsx 152-154):
`Math.round(value / gridSize) * gridSize`; Mathlib's `round x = ⌊x + 1/2⌋`
agrees with JS `Math.round` on every rational, halves included. -/
def snapToGrid (gridSize value : ℚ) : ℚ :=
  ((round (value / gridSize) : ℤ) : ℚ) * gridSize

/-- The four horizontal edge-snap assignments of getSnappedPosition
(GridLayoutManager.tsx 176-185) for one neighbor, applied in source order to
the running snapped x: a later assignment overwrites an earlier one. -/
def snapStepX (snapThreshold : ℚ) (proposed w : WidgetPosition) (snappedX : ℚ) : ℚ :=
  let s1 := if |proposed.x - w.x| < snapThreshold then w.x else snappedX
  let s2 := if |proposed.x - (w.x + w.width)| < snapThreshold then w.x + w.width else s1
  let s3 := if |(proposed.x + proposed.width) - w.x| < snapThreshold then
    w.x - proposed.width else s2
  if |(proposed.x + proposed.width) - (w.x + w.width)| < snapThreshold then
    w.x + w.width - proposed.width else s3

/-- The four vertical edge-snap assignments of getSnappedPosition
(GridLayoutManager.tsx 187-196) for one neighbor, in source order. -/
def snapStepY (snapThreshold : ℚ) (proposed w : WidgetPosition) (snappedY : ℚ) : ℚ :=
  let s1 := if |proposed.y - w.y| < snapThreshold then w.y else snappedY
  let s2 := if |proposed.y - (w.y + w.height)| < snapThreshold then w.y + w.height else s1
  let s3 := if |(proposed.y + proposed.height) - w.y| < snapThreshold then
    w.y - proposed.height else s2
  if |(proposed.y + proposed.height) - (w.y + w.height)| < snapThreshold then
    w.y + w.height - proposed.height else s3

/-- The neighbor loop of getSnappedPosition (GridLayoutManager.tsx 173-197):
fold the per-neighbor snap steps over the layout in iteration order, skipping
the widget itself. -/
def snapNeighbors (snapThreshold : ℚ) (id : String) (proposed : WidgetPosition) :
    Layout → ℚ → ℚ → ℚ × ℚ
  | [], snappedX, snappedY => (snappedX, snappedY)
  | e :: rest, snappedX, snappedY =>
    if e.1 = id then snapNeighbors snapThreshold id proposed rest snappedX snappedY
    else
      snapNeighbors snapThreshold id proposed rest
        (snapStepX snapThreshold proposed e.2 snappedX)
        (snapStepY snapThreshold proposed e.2 snappedY)

/-- getSnappedPosition (GridLayoutManager.tsx 156-205): grid-snap all four
fields, then let every neighbor's edge snaps overwrite x and y. -/
def getSnappedPosition (gridSize snapThreshold : ℚ) (W : Layout) (id : String)
    (position : WidgetPatch) : WidgetPatch :=
  match getW W id with
  | none => position
  | some current =>
    let proposed := mergePos current position
    let s := snapNeighbors snapThreshold id proposed W
      (snapToGrid gridSize proposed.x) (snapToGrid gridSize proposed.y)
    { id? := none, x? := some s.1, y? := some s.2,
      width? := some (snapToGrid gridSize proposed.width),
      height? := some (snapToGrid gridSize proposed.height) }

/-- An entry of pushWidgets' cascade queue (GridLayoutManager.tsx 215). -/
structure QueueItem where
  id : String
  position : WidgetPosition
deriving DecidableEq, Repr

/-- The push computation of pushWidgets (GridLayoutManager.tsx 231-275):
choose the axis of least overlap between the mover and the target, then the
direction on that axis from their relative positions, placing the target just
past the mover with a 10-unit gap. -/
def pushUnclamped (movingWidget targetWidget : WidgetPosition) : WidgetPosition :=
  let overlapX := min (movingWidget.x + movingWidget.width - targetWidget.x)
    (targetWidget.x + targetWidget.width - movingWidget.x)
  let overlapY := min (movingWidget.y + movingWidget.height - targetWidget.y)
    (targetWidget.y + targetWidget.height - movingWidget.y)
  if overlapX < overlapY then
    if movingWidget.x < targetWidget.x then
      { targetWidget with x := movingWidget.x + movingWidget.width + 10 }
    else
      { targetWidget with x := movingWidget.x - targetWidget.width - 10 }
  else
    if movingWidget.y < targetWidget.y then
      { targetWidget with y := movingWidget.y + movingWidget.height + 10 }
    else
      { targetWidget with y := movingWidget.y - targetWidget.height - 10 }

/-- The boundary clamp of pushWidgets (GridLayoutManager.tsx 277-279):
`newWidgetPosition.x = Math.max(0, ...)`, likewise for y. -/
def pushClamped (movingWidget targetWidget : WidgetPosition) : WidgetPosition :=
  let p := pushUnclamped movingWidget targetWidget
  { p with x := max 0 p.x, y := max 0 p.y }

/-- One target's fully resolved position in pushWidgets (GridLayoutManager.tsx
243-283): push, clamp, then re-snap and spread the snapped fields back over
the clamped position. -/
def pushResolved (gridSize snapThreshold : ℚ) (W : Layout) (targetId : String)
    (movingWidget targetWidget : WidgetPosition) : WidgetPosition :=
  let clamped := pushClamped movingWidget targetWidget
  mergePos clamped (getSnappedPosition gridSize snapThreshold W targetId (toPatch clamped))

/-- The cascade loop of pushWidgets (GridLayoutManager.tsx 219-297) with an
explicit iteration budget (`pushFuel` below provably suffices: see the
termination theorem). Every read goes through the map as it stood when the
pass began, because widgetsRef is only re-synced after the React state commit;
the pass therefore accumulates its updateWidget calls as an ordered write
batch. -/
def pushLoopF (gridSize snapThreshold : ℚ) (W : Layout) (movingWidgetId : String) :
    Nat → List QueueItem → List String → List (String × WidgetPosition) →
    List (String × WidgetPosition)
  | _, [], _, writes => writes
  | 0, _ :: _, _, writes => writes
  | fuel + 1, current :: rest, movedWidgets, writes =>
    if hasId movedWidgets current.id then
      pushLoopF gridSize snapThreshold W movingWidgetId fuel rest movedWidgets writes
    else
      match getW W movingWidgetId, getW W current.id with
      | some movingWidget, some targetWidget =>
        let moved := current.id :: movedWidgets
        let newWidgetPosition :=
          pushResolved gridSize snapThreshold W current.id movingWidget targetWidget
        let subsequent :=
          match checkCollision W current.id (toPatch newWidgetPosition) with
          | some cols =>
            (cols.filter (fun w => !(hasId moved w.id))).map (fun w => QueueItem.mk w.id w)
          | none => []
        pushLoopF gridSize snapThreshold W movingWidgetId fuel (rest ++ subsequent)
          moved (writes ++ [(current.id, newWidgetPosition)])
      | _, _ =>
        pushLoopF gridSize snapThreshold W movingWidgetId fuel rest movedWidgets writes

/-- The widgets of the pass's frozen map not yet in the moved set. -/
def unmovedCount (W : Layout) (movedWidgets : List String) : Nat :=
  (W.filter (fun e => !(hasId movedWidgets e.1))).length

/-- An iteration budget for the cascade loop; the termination theorem shows a
pass never needs more. -/
def pushFuel (W : Layout) (movedWidgets : List String) (queue : List QueueItem) : Nat :=
  unmovedCount W movedWidgets * (W.length + 1) + queue.length

/-- pushWidgets (GridLayoutManager.tsx 207-298): the pass's batch of
updateWidget writes, in the order they are issued. -/
def pushWidgets (gridSize snapThreshold : ℚ) (W : Layout) (movingWidgetId : String)
    (newPosition : WidgetPosition) : List (String × WidgetPosition) :=
  match checkCollision W movingWidgetId (toPatch newPosition) with
  | none => []
  | some collisions =>
    let queue := collisions.map (fun w => QueueItem.mk w.id w)
    pushLoopF gridSize snapThreshold W movingWidgetId
      (pushFuel W [movingWidgetId] queue) queue [movingWidgetId] []

namespace Variant2

/-- The per-target push of the sibling pushWidgets variant
(src/unnamed/part_002 224-248): the four separating translations each plus the
10-unit gap, the smallest applied on its single axis, ties resolved in the
order right, left, down, up. Every push is computed against the original
mover's proposed rectangle. -/
def computePush (proposedPosition targetWidget : WidgetPosition) : WidgetPosition :=
  let pushRight := proposedPosition.x + proposedPosition.width - targetWidget.x + 10
  let pushLeft := targetWidget.x + targetWidget.width - proposedPosition.x + 10
  let pushDown := proposedPosition.y + proposedPosition.height - targetWidget.y + 10
  let pushUp := targetWidget.y + targetWidget.height - proposedPosition.y + 10
  let minPush := min (min (min pushRight pushLeft) pushDown) pushUp
  if minPush = pushRight then { targetWidget with x := targetWidget.x + pushRight }
  else if minPush = pushLeft then { targetWidget with x := targetWidget.x - pushLeft }
  else if minPush = pushDown then { targetWidget with y := targetWidget.y + pushDown }
  else { targetWidget with y := targetWidget.y - pushUp }

/-- The cascade loop of the pushWidgets variant (src/unnamed/part_002
215-273), with an explicit iteration budget. -/
def pushLoopF (proposedPosition : WidgetPosition) (W : Layout) (movingWidgetId : String) :
    Nat → List (String × WidgetPosition) → List String →
    List (String × WidgetPosition) → List (String × WidgetPosition)
  | _, [], _, writes => writes
  | 0, _ :: _, _, writes => writes
  | fuel + 1, (targetId, targetWidget) :: rest, movedWidgetIds, writes =>
    if hasId movedWidgetIds targetId then
      pushLoopF proposedPosition W movingWidgetId fuel rest movedWidgetIds writes
    else
      let moved := targetId :: movedWidgetIds
      let pushed := computePush proposedPosition targetWidget
      let newPosition := { pushed with x := max 0 pushed.x, y := max 0 pushed.y }
      let enqueued := W.filter (fun e =>
        !(decide (e.1 = movingWidgetId)) && !(decide (e.1 = targetId)) &&
        !(hasId moved e.1) && checkOverlap newPosition e.2)
      pushLoopF proposedPosition W movingWidgetId fuel (rest ++ enqueued) moved
        (writes ++ [(targetId, newPosition)])

/-- An iteration budget for the variant's cascade loop. -/
def cascadeFuel (W : Layout) (movedWidgetIds : List String)
    (queue : List (String × WidgetPosition)) : Nat :=
  unmovedCount W movedWidgetIds * (W.length + 1) + queue.length

/-- pushWidgets variant (src/unnamed/part_002 190-274): scan the frozen map
for widgets colliding with the mover's proposed rectangle, then cascade. -/
def pushWidgets (W : Layout) (movingWidgetId : String)
    (proposedPosition : WidgetPosition) : List (String × WidgetPosition) :=
  let widgetsToMove := W.filter (fun e =>
    !(decide (e.1 = movingWidgetId)) && checkOverlap proposedPosition e.2)
  pushLoopF proposedPosition W movingWidgetId
    (cascadeFuel W [movingWidgetId] widgetsToMove) widgetsToMove [movingWidgetId] []

end Variant2

/-- Stated from the spec's words (§4.3 step 3), to be compared with
`Variant2.computePush`: compute the four separating translation magnitudes —
push right `mover.x + mover.width - target.x`, push left
`target.x + target.width - mover.x`, push down
`mover.y + mover.height - target.y`, push up
`target.y + target.height - mover.y` — choose the direction with the smallest
magnitude, ties broken in the enumeration order right, left, down, up, and
translate the target by exactly that magnitude plus the fixed 10-unit gap in
that direction only. -/
def specMinimalPush (mover target : WidgetPosition) : WidgetPosition :=
  let right := mover.x + mover.width - target.x
  let left := target.x + target.width - mover.x
  let down := mover.y + mover.height - target.y
  let up := target.y + target.height - mover.y
  if right ≤ left ∧ right ≤ down ∧ right ≤ up then
    { target with x := target.x + (right + 10) }
  else if left ≤ down ∧ left ≤ up then
    { target with x := target.x - (left + 10) }
  else if down ≤ up then
    { target with y := target.y + (down + 10) }
  else
    { target with y := target.y - (up + 10) }

/-! ## Helper lemmas -/

theorem hasId_eq_false_iff (m : List String) (i : String) : hasId m i = false ↔ i ∉ m := by
  induction m with
  | nil => simp [hasId]
  | cons s rest ih =>
    by_cases hs : s = i
    · subst hs; simp [hasId]
    · simp [hasId, hs, ih, Ne.symm hs]

theorem hasId_eq_true_iff (m : List String) (i : String) : hasId m i = true ↔ i ∈ m := by
  rcases h : hasId m i with _ | _
  · rw [hasId_eq_false_iff] at h
    simp [h]
  · simp only [true_iff]
    by_contra hmem
    rw [← hasId_eq_false_iff] at hmem
    simp [h] at hmem

theorem getW_setW_ne (W : Layout) (A B : String) (r : WidgetPosition) (h : A ≠ B) :
    getW (setW W A r) B = getW W B := by
  induction W with
  | nil => simp [setW, getW, h]
  | cons e rest ih =>
    obtain ⟨k, w⟩ := e
    by_cases hk : k = A
    · subst hk; simp [setW, getW, h, ih]
    · by_cases hb : k = B
      · subst hb; simp [setW, getW, hk]
      · simp [setW, getW, hk, hb, ih]

theorem getW_removeWidget_ne (W : Layout) (A B : String) (h : A ≠ B) :
    getW (removeWidget W A) B = getW W B := by
  induction W with
  | nil => simp [removeWidget, getW]
  | cons e rest ih =>
    obtain ⟨k, w⟩ := e
    by_cases hk : k = A
    · subst hk
      simpa [removeWidget, getW, h] using ih
    · by_cases hb : k = B
      · subst hb; simp [removeWidget, getW, hk]
      · simpa [removeWidget, getW, hk, hb] using ih

/-! ## C6: grid snap idempotence -/

/-- C6: grid snapping is idempotent: for every value and every positive grid
size, `snapToGrid (snapToGrid v) = snapToGrid v` (snapToGrid,
GridLayoutManager.tsx 152-154). -/
theorem snapToGrid_idempotent (gridSize v : ℚ) (h : 0 < gridSize) :
    snapToGrid gridSize (snapToGrid gridSize v) = snapToGrid gridSize v := by
  unfold snapToGrid
  rw [mul_div_cancel_right₀ _ (ne_of_gt h), round_intCast]

/-- Witness for C6 at gridSize 20 and value 7. -/
theorem snapToGrid_idempotent_witness :
    snapToGrid 20 (snapToGrid 20 7) = snapToGrid 20 7 :=
  snapToGrid_idempotent 20 7 (by norm_num)

/-! ## C9: unknown id on update is a no-op -/

/-- C9: updateWidget with an id absent from the layout mapping returns the
layout unchanged, for every layout and every partial rectangle; the function
is total, so no error is signalled (updateWidget, GridLayoutManager.tsx
60-69). -/
theorem updateWidget_unknown_id (W : Layout) (id : String) (p : WidgetPatch)
    (h : getW W id = none) : updateWidget W id p = W := by
  unfold updateWidget
  rw [h]

/-- Witness for C9: updating an id that the one-widget layout does not hold. -/
theorem updateWidget_unknown_id_witness :
    updateWidget [("a", ⟨"a", 0, 0, 100, 100⟩)] "b" { x? := some 5 } =
      [("a", ⟨"a", 0, 0, 100, 100⟩)] :=
  updateWidget_unknown_id _ "b" _ (by decide)

/-! ## C10: store operations only touch their own entry -/

/-- C10: for distinct ids A and B, registerWidget, updateWidget and
removeWidget on A leave B's mapped rectangle exactly unchanged
(GridLayoutManager.tsx 52-77). -/
theorem store_ops_frame (W : Layout) (A B : String) (r : WidgetPosition)
    (p : WidgetPatch) (h : A ≠ B) :
    getW (registerWidget W A r) B = getW W B ∧
    getW (updateWidget W A p) B = getW W B ∧
    getW (removeWidget W A) B = getW W B := by
  refine ⟨getW_setW_ne W A B r h, ?_, getW_removeWidget_ne W A B h⟩
  unfold updateWidget
  rcases getW W A with _ | current
  · rfl
  · exact getW_setW_ne W A B _ h

/-- Witness for C10 on a two-widget layout with A = "a", B = "b". -/
theorem store_ops_frame_witness :
    getW (registerWidget [("a", ⟨"a", 0, 0, 100, 100⟩), ("b", ⟨"b", 200, 0, 100, 100⟩)]
        "a" ⟨"a", 20, 20, 100, 100⟩) "b" =
      getW [("a", ⟨"a", 0, 0, 100, 100⟩), ("b", ⟨"b", 200, 0, 100, 100⟩)] "b" ∧
    getW (updateWidget [("a", ⟨"a", 0, 0, 100, 100⟩), ("b", ⟨"b", 200, 0, 100, 100⟩)]
        "a" { x? := some 40 }) "b" =
      getW [("a", ⟨"a", 0, 0, 100, 100⟩), ("b", ⟨"b", 200, 0, 100, 100⟩)] "b" ∧
    getW (removeWidget [("a", ⟨"a", 0, 0, 100, 100⟩), ("b", ⟨"b", 200, 0, 100, 100⟩)]
        "a") "b" =
      getW [("a", ⟨"a", 0, 0, 100, 100⟩), ("b", ⟨"b", 200, 0, 100, 100⟩)] "b" :=
  store_ops_frame _ "a" "b" _ _ (by decide)

/-! ## C5: the overlap test -/

/-- C5: for rectangles with positive extents, the overlap test is true exactly
when the projections intersect with nonzero length on both axes, and
rectangles that merely touch edges (horizontally or vertically) are not
overlapping (checkCollision, GridLayoutManager.tsx 90-95; checkOverlap,
src/unnamed/part_003 33-40). -/
theorem checkOverlap_characterization (a b : WidgetPosition)
    (haw : 0 < a.width) (hbw : 0 < b.width) (hah : 0 < a.height) (hbh : 0 < b.height) :
    (checkOverlap a b = true ↔
      (max a.x b.x < min (a.x + a.width) (b.x + b.width) ∧
       max a.y b.y < min (a.y + a.height) (b.y + b.height))) ∧
    (a.x + a.width = b.x → checkOverlap a b = false) ∧
    (a.y + a.height = b.y → checkOverlap a b = false) := by
  unfold checkOverlap
  refine ⟨?_, ?_, ?_⟩
  · simp only [Bool.not_eq_true', Bool.or_eq_false_iff, decide_eq_false_iff_not, not_le,
      max_lt_iff, lt_min_iff]
    constructor
    · rintro ⟨⟨⟨h1, h2⟩, h3⟩, h4⟩
      refine ⟨⟨⟨?_, ?_⟩, ?_, ?_⟩, ⟨?_, ?_⟩, ?_, ?_⟩ <;> linarith
    · rintro ⟨⟨⟨-, h1⟩, h2, -⟩, ⟨-, h3⟩, h4, -⟩
      refine ⟨⟨⟨?_, ?_⟩, ?_⟩, ?_⟩ <;> linarith
  · intro h
    simp [h]
  · intro h
    simp [h]

/-- Witness for C5 at two concrete overlapping rectangles. -/
theorem checkOverlap_characterization_witness :
    (checkOverlap ⟨"a", 0, 0, 100, 100⟩ ⟨"b", 50, 50, 100, 100⟩ = true ↔
      (max (0 : ℚ) 50 < min ((0 : ℚ) + 100) (50 + 100) ∧
       max (0 : ℚ) 50 < min ((0 : ℚ) + 100) (50 + 100))) ∧
    ((0 : ℚ) + 100 = 50 → checkOverlap ⟨"a", 0, 0, 100, 100⟩ ⟨"b", 50, 50, 100, 100⟩ = false) ∧
    ((0 : ℚ) + 100 = 50 → checkOverlap ⟨"a", 0, 0, 100, 100⟩ ⟨"b", 50, 50, 100, 100⟩ = false) :=
  checkOverlap_characterization ⟨"a", 0, 0, 100, 100⟩ ⟨"b", 50, 50, 100, 100⟩
    (by norm_num) (by norm_num) (by norm_num) (by norm_num)

/-! ## C1: the minimal-translation push -/

theorem min4_eq_first (a b c d : ℚ) :
    min (min (min a b) c) d = a ↔ a ≤ b ∧ a ≤ c ∧ a ≤ d := by
  constructor
  · intro h
    have hb : min (min (min a b) c) d ≤ b :=
      le_trans (min_le_left _ _) (le_trans (min_le_left _ _) (min_le_right _ _))
    have hc : min (min (min a b) c) d ≤ c := le_trans (min_le_left _ _) (min_le_right _ _)
    have hd : min (min (min a b) c) d ≤ d := min_le_right _ _
    rw [h] at hb hc hd
    exact ⟨hb, hc, hd⟩
  · rintro ⟨hb, hc, hd⟩
    rw [min_eq_left hb, min_eq_left hc, min_eq_left hd]

theorem min4_eq_second (a b c d : ℚ) :
    min (min (min a b) c) d = b ↔ b ≤ a ∧ b ≤ c ∧ b ≤ d := by
  constructor
  · intro h
    have ha : min (min (min a b) c) d ≤ a :=
      le_trans (min_le_left _ _) (le_trans (min_le_left _ _) (min_le_left _ _))
    have hc : min (min (min a b) c) d ≤ c := le_trans (min_le_left _ _) (min_le_right _ _)
    have hd : min (min (min a b) c) d ≤ d := min_le_right _ _
    rw [h] at ha hc hd
    exact ⟨ha, hc, hd⟩
  · rintro ⟨ha, hc, hd⟩
    rw [min_eq_right ha, min_eq_left hc, min_eq_left hd]

theorem min4_eq_third (a b c d : ℚ) :
    min (min (min a b) c) d = c ↔ c ≤ a ∧ c ≤ b ∧ c ≤ d := by
  constructor
  · intro h
    have ha : min (min (min a b) c) d ≤ a :=
      le_trans (min_le_left _ _) (le_trans (min_le_left _ _) (min_le_left _ _))
    have hb : min (min (min a b) c) d ≤ b :=
      le_trans (min_le_left _ _) (le_trans (min_le_left _ _) (min_le_right _ _))
    have hd : min (min (min a b) c) d ≤ d := min_le_right _ _
    rw [h] at ha hb hd
    exact ⟨ha, hb, hd⟩
  · rintro ⟨ha, hb, hd⟩
    rw [min_eq_right (le_min ha hb), min_eq_left hd]

theorem min4_eq_fourth (a b c d : ℚ) :
    min (min (min a b) c) d = d ↔ d ≤ a ∧ d ≤ b ∧ d ≤ c := by
  constructor
  · intro h
    have ha : min (min (min a b) c) d ≤ a :=
      le_trans (min_le_left _ _) (le_trans (min_le_left _ _) (min_le_left _ _))
    have hb : min (min (min a b) c) d ≤ b :=
      le_trans (min_le_left _ _) (le_trans (min_le_left _ _) (min_le_right _ _))
    have hc : min (min (min a b) c) d ≤ c := le_trans (min_le_left _ _) (min_le_right _ _)
    rw [h] at ha hb hc
    exact ⟨ha, hb, hc⟩
  · rintro ⟨ha, hb, hc⟩
    rw [min_eq_right (le_min (le_min ha hb) hc)]

/-- C1: the collision resolver variant of src/unnamed/part_002 pushes each
colliding neighbor in the single direction whose separating translation
magnitude is smallest, ties broken in the order right, left, down, up,
translating it by exactly that magnitude plus the fixed 10-unit gap on that
one axis (the per-target computation agrees with the spec-worded
`specMinimalPush` at every input); in particular, for the layout
A = (0,0,100,100), B = (150,0,100,100), resolving A's move to (140,0)
produces exactly one push, setting B's x to 250 with B's y unchanged. -/
theorem pushWidgets_minimal_translation :
    (∀ mover target : WidgetPosition,
      Variant2.computePush mover target = specMinimalPush mover target) ∧
    Variant2.pushWidgets [("A", ⟨"A", 0, 0, 100, 100⟩), ("B", ⟨"B", 150, 0, 100, 100⟩)] "A"
      ⟨"A", 140, 0, 100, 100⟩ = [("B", ⟨"B", 250, 0, 100, 100⟩)] := by
  constructor
  · intro mover target
    simp only [Variant2.computePush, specMinimalPush, min4_eq_first, min4_eq_second,
      min4_eq_third, min4_eq_fourth, add_le_add_iff_right]
    set r := mover.x + mover.width - target.x with hr
    set l := target.x + target.width - mover.x with hl
    set d := mover.y + mover.height - target.y with hd
    set u := target.y + target.height - mover.y with hu
    by_cases h1 : r ≤ l ∧ r ≤ d ∧ r ≤ u
    · rw [if_pos h1, if_pos h1]
    · rw [if_neg h1, if_neg h1]
      by_cases h2s : l ≤ d ∧ l ≤ u
      · have hlr : l ≤ r := by
          rcases le_or_lt l r with h | h
          · exact h
          · push_neg at h1
            have := h1 h.le (le_trans h.le h2s.1)
            linarith [h2s.2]
        rw [if_pos ⟨hlr, h2s.1, h2s.2⟩, if_pos h2s]
      · have h2 : ¬(l ≤ r ∧ l ≤ d ∧ l ≤ u) := fun hh => h2s ⟨hh.2.1, hh.2.2⟩
        rw [if_neg h2, if_neg h2s]
        by_cases h3s : d ≤ u
        · have hdl : d ≤ l := by
            rcases le_or_lt d l with h | h
            · exact h
            · push_neg at h2s
              have := h2s h.le
              linarith
          have hdr : d ≤ r := by
            rcases le_or_lt d r with h | h
            · exact h
            · push_neg at h1
              have := h1 (le_trans h.le hdl) h.le
              linarith
          rw [if_pos ⟨hdr, hdl, h3s⟩, if_pos h3s]
        · have h3 : ¬(d ≤ r ∧ d ≤ l ∧ d ≤ u) := fun hh => h3s hh.2.2
          rw [if_neg h3, if_neg h3s]
  · norm_num [Variant2.pushWidgets, Variant2.pushLoopF, Variant2.cascadeFuel,
      Variant2.computePush, unmovedCount, hasId, checkOverlap, List.filter]
    all_goals decide

/-! ## C4: the boundary clamp does not survive re-snapping -/

/-- C4 (evaluation at the failing input): with the non-negative layout
A = (50,0,100,100), B = (0,60,55,100), gridSize 20, snapThreshold 10,
resolving A's move to its own rectangle pushes B left, clamps it to x = 0,
and the subsequent neighbor-edge re-snap (`snappedX = widget.x -
proposed.width`, GridLayoutManager.tsx 184) then writes B at x = -5: the pass
emits a rectangle with negative x although every input coordinate is
non-negative and the clamp of lines 277-279 ran. -/
theorem pushWidgets_resnap_writes_negative_x :
    pushWidgets 20 10 [("A", ⟨"A", 50, 0, 100, 100⟩), ("B", ⟨"B", 0, 60, 55, 100⟩)] "A"
      ⟨"A", 50, 0, 100, 100⟩ = [("B", ⟨"B", -5, 60, 60, 100⟩)] ∧
    (-5 : ℚ) < 0 := by
  constructor
  · have eAB : (("A" : String) = "B") = False := eq_false (by decide)
    have eBA : (("B" : String) = "A") = False := eq_false (by decide)
    have eAA : (("A" : String) = "A") = True := eq_true rfl
    have eBB : (("B" : String) = "B") = True := eq_true rfl
    norm_num [eAB, eBA, eAA, eBB, pushWidgets, pushLoopF, pushFuel, pushResolved, pushClamped,
      pushUnclamped, unmovedCount, hasId, checkOverlap, checkCollision, getW, mergePos,
      toPatch, getSnappedPosition, snapNeighbors, snapStepX, snapStepY, snapToGrid, round_eq,
      List.filter]
  · norm_num

/-- The clamped position itself, before the re-snap, always has non-negative
coordinates: the violation of the boundary-clamp property comes only from the
re-snap step that follows it. -/
theorem pushClamped_nonneg (movingWidget targetWidget : WidgetPosition) :
    0 ≤ (pushClamped movingWidget targetWidget).x ∧
    0 ≤ (pushClamped movingWidget targetWidget).y := by
  unfold pushClamped
  exact ⟨le_max_left _ _, le_max_left _ _⟩

/-! ## C3 and C8: the write batch -/

theorem pushLoopF_writes_inv (gridSize snapThreshold : ℚ) (W : Layout)
    (movingWidgetId : String) :
    ∀ (fuel : Nat) (queue : List QueueItem) (movedWidgets : List String)
      (writes : List (String × WidgetPosition)),
      (∀ i ∈ writes.map Prod.fst, hasId movedWidgets i = true) →
      (writes.map Prod.fst).Nodup →
      ((pushLoopF gridSize snapThreshold W movingWidgetId fuel queue movedWidgets
          writes).map Prod.fst).Nodup ∧
      ∀ i ∈ (pushLoopF gridSize snapThreshold W movingWidgetId fuel queue movedWidgets
          writes).map Prod.fst, i ∈ writes.map Prod.fst ∨ hasId movedWidgets i = false := by
  intro fuel
  induction fuel with
  | zero =>
    intro queue movedWidgets writes h1 h2
    cases queue with
    | nil => exact ⟨by simpa [pushLoopF] using h2, fun i hi => Or.inl (by simpa [pushLoopF] using hi)⟩
    | cons c rest =>
      exact ⟨by simpa [pushLoopF] using h2, fun i hi => Or.inl (by simpa [pushLoopF] using hi)⟩
  | succ fuel ih =>
    intro queue movedWidgets writes h1 h2
    cases queue with
    | nil => exact ⟨by simpa [pushLoopF] using h2, fun i hi => Or.inl (by simpa [pushLoopF] using hi)⟩
    | cons current rest =>
      by_cases hmem : hasId movedWidgets current.id = true
      · simpa [pushLoopF, hmem] using ih rest movedWidgets writes h1 h2
      · rcases hM : getW W movingWidgetId with _ | movingWidget
        · simpa [pushLoopF, hmem, hM] using ih rest movedWidgets writes h1 h2
        · rcases hT : getW W current.id with _ | targetWidget
          · simpa [pushLoopF, hmem, hM, hT] using ih rest movedWidgets writes h1 h2
          · have hmemf : hasId movedWidgets current.id = false := by
              simpa using hmem
            have hnotin : current.id ∉ writes.map Prod.fst := fun hin => by
              rw [h1 current.id hin] at hmemf
              exact Bool.true_eq_false.mp hmemf
            have h1' : ∀ i ∈ (writes ++
                [(current.id, pushResolved gridSize snapThreshold W current.id movingWidget
                  targetWidget)]).map Prod.fst,
                hasId (current.id :: movedWidgets) i = true := by
              intro i hi
              rw [List.map_append, List.mem_append] at hi
              rcases hi with hi | hi
              · have := h1 i hi
                simp only [hasId]
                split
                · rfl
                · exact this
              · simp only [List.map_cons, List.map_nil, List.mem_singleton] at hi
                subst hi
                simp [hasId]
            have h2' : ((writes ++
                [(current.id, pushResolved gridSize snapThreshold W current.id movingWidget
                  targetWidget)]).map Prod.fst).Nodup := by
              rw [List.map_append]
              simp only [List.map_cons, List.map_nil]
              rw [List.nodup_append]
              exact ⟨h2, List.nodup_singleton _, by
                intro a ha hb
                simp only [List.mem_singleton] at hb
                subst hb
                exact hnotin ha⟩
            obtain ⟨c1, c2⟩ := ih (rest ++ _) (current.id :: movedWidgets) _ h1' h2'
            refine ⟨by simpa [pushLoopF, hmem, hM, hT] using c1, fun i hi => ?_⟩
            have hi' := c2 i (by simpa [pushLoopF, hmem, hM, hT] using hi)
            rcases hi' with hi' | hi'
            · rw [List.map_append, List.mem_append] at hi'
              rcases hi' with hi' | hi'
              · exact Or.inl hi'
              · simp only [List.map_cons, List.map_nil, List.mem_singleton] at hi'
                subst hi'
                exact Or.inr hmemf
            · simp only [hasId] at hi'
              split at hi'
              · exact absurd hi' (by simp)
              · exact Or.inr hi'

/-- C3: in any single collision-resolution pass started for moving widget A,
every widget id is written at most once (the write batch's ids are free of
duplicates) and A itself is never among the pushed targets (pushWidgets,
GridLayoutManager.tsx 211-298). -/
theorem pushWidgets_writes_each_id_at_most_once (gridSize snapThreshold : ℚ) (W : Layout)
    (movingWidgetId : String) (newPosition : WidgetPosition) :
    ((pushWidgets gridSize snapThreshold W movingWidgetId newPosition).map Prod.fst).Nodup ∧
    hasId ((pushWidgets gridSize snapThreshold W movingWidgetId newPosition).map Prod.fst)
      movingWidgetId = false := by
  unfold pushWidgets
  rcases h : checkCollision W movingWidgetId (toPatch newPosition) with _ | cols
  · simp [hasId]
  · obtain ⟨c1, c2⟩ := pushLoopF_writes_inv gridSize snapThreshold W movingWidgetId
      (pushFuel W [movingWidgetId] (cols.map fun w => QueueItem.mk w.id w))
      (cols.map fun w => QueueItem.mk w.id w) [movingWidgetId] []
      (by intro i hi; simp at hi) (by simp)
    refine ⟨c1, ?_⟩
    rw [hasId_eq_false_iff]
    intro hmem
    rcases c2 movingWidgetId hmem with hx | hx
    · simp at hx
    · rw [hasId_eq_false_iff] at hx
      exact hx (by simp)

/-- C8 (amended): the write batch produced by a pass of the resolver consists
of the cascaded pushes only; the moving widget itself is never among the
writes (its own rectangle is applied separately by the caller through
updateWidget). -/
theorem pushWidgets_batch_excludes_mover (gridSize snapThreshold : ℚ) (W : Layout)
    (movingWidgetId : String) (newPosition : WidgetPosition) :
    hasId ((pushWidgets gridSize snapThreshold W movingWidgetId newPosition).map Prod.fst)
      movingWidgetId = false := by
  unfold pushWidgets
  rcases h : checkCollision W movingWidgetId (toPatch newPosition) with _ | cols
  · rfl
  · obtain ⟨-, c2⟩ := pushLoopF_writes_inv gridSize snapThreshold W movingWidgetId
      (pushFuel W [movingWidgetId] (cols.map fun w => QueueItem.mk w.id w))
      (cols.map fun w => QueueItem.mk w.id w) [movingWidgetId] []
      (by intro i hi; simp at hi) (by simp)
    rw [hasId_eq_false_iff]
    intro hmem
    rcases c2 movingWidgetId hmem with hx | hx
    · simp at hx
    · rw [hasId_eq_false_iff] at hx
      exact hx (by simp)

/-- C8 (counterexample): resolving A's move to (140,0) in the layout
A = (0,0,100,100), B = (150,0,100,100) produces a non-empty write batch —
exactly one push, on B — and that batch contains no write for the moving
widget A itself, contradicting the claim that the resolver's writes include
the moving widget. -/
theorem pushWidgets_batch_omits_mover_cex :
    pushWidgets 20 10 [("A", ⟨"A", 0, 0, 100, 100⟩), ("B", ⟨"B", 150, 0, 100, 100⟩)] "A"
      ⟨"A", 140, 0, 100, 100⟩ = [("B", ⟨"B", 120, 0, 100, 100⟩)] ∧
    hasId ((pushWidgets 20 10 [("A", ⟨"A", 0, 0, 100, 100⟩), ("B", ⟨"B", 150, 0, 100, 100⟩)]
      "A" ⟨"A", 140, 0, 100, 100⟩).map Prod.fst) "A" = false := by
  have main :
      pushWidgets 20 10 [("A", ⟨"A", 0, 0, 100, 100⟩), ("B", ⟨"B", 150, 0, 100, 100⟩)] "A"
        ⟨"A", 140, 0, 100, 100⟩ = [("B", ⟨"B", 120, 0, 100, 100⟩)] := by
    have eAB : (("A" : String) = "B") = False := eq_false (by decide)
    have eBA : (("B" : String) = "A") = False := eq_false (by decide)
    have eAA : (("A" : String) = "A") = True := eq_true rfl
    have eBB : (("B" : String) = "B") = True := eq_true rfl
    norm_num [eAB, eBA, eAA, eBB, pushWidgets, pushLoopF, pushFuel, pushResolved, pushClamped,
      pushUnclamped, unmovedCount, hasId, checkOverlap, checkCollision, getW, mergePos,
      toPatch, getSnappedPosition, snapNeighbors, snapStepX, snapStepY, snapToGrid, round_eq,
      List.filter]
  refine ⟨main, ?_⟩
  rw [main]
  decide

/-! ## C2: the cascade loop terminates -/

theorem hasId_cons_eq (s : String) (movedWidgets : List String) (i : String) :
    hasId (s :: movedWidgets) i = if s = i then true else hasId movedWidgets i := rfl

theorem unmovedCount_cons_le (W : Layout) (movedWidgets : List String) (s : String) :
    unmovedCount W (s :: movedWidgets) ≤ unmovedCount W movedWidgets := by
  unfold unmovedCount
  refine List.Sublist.length_le (List.monotone_filter_right W ?_)
  intro e he
  simp only [Bool.not_eq_true'] at he ⊢
  rw [hasId_cons_eq] at he
  split at he
  · exact absurd he (by simp)
  · exact he

theorem unmovedCount_cons_lt (W : Layout) (movedWidgets : List String) (cid : String)
    (tw : WidgetPosition) (hget : getW W cid = some tw)
    (hm : hasId movedWidgets cid = false) :
    unmovedCount W (cid :: movedWidgets) + 1 ≤ unmovedCount W movedWidgets := by
  induction W with
  | nil => simp [getW] at hget
  | cons e rest ih =>
    obtain ⟨k, w⟩ := e
    by_cases hk : k = cid
    · subst hk
      have hp : (!(hasId movedWidgets (k, w).1)) = true := by simp [hm]
      have hp' : ¬ ((!(hasId (k :: movedWidgets) (k, w).1)) = true) := by
        simp [hasId_cons_eq]
      unfold unmovedCount
      rw [@List.filter_cons_of_pos _ (fun e => !(hasId movedWidgets e.1)) (k, w) rest hp,
        @List.filter_cons_of_neg _ (fun e => !(hasId (k :: movedWidgets) e.1)) (k, w) rest hp']
      have hrest := unmovedCount_cons_le rest movedWidgets k
      unfold unmovedCount at hrest
      simp only [List.length_cons]
      omega
    · have hget' : getW rest cid = some tw := by
        simpa [getW, hk] using hget
      have ihr := ih hget'
      have heq : hasId (cid :: movedWidgets) (k, w).1 = hasId movedWidgets (k, w).1 := by
        rw [hasId_cons_eq]
        simp [Ne.symm hk]
      unfold unmovedCount at ihr ⊢
      by_cases h : hasId movedWidgets k = true
      · have hp : ¬ ((!(hasId movedWidgets (k, w).1)) = true) := by simp [h]
        have hp' : ¬ ((!(hasId (cid :: movedWidgets) (k, w).1)) = true) := by
          simp only [heq]
          exact hp
        rw [@List.filter_cons_of_neg _ (fun e => !(hasId movedWidgets e.1)) (k, w) rest hp,
          @List.filter_cons_of_neg _ (fun e => !(hasId (cid :: movedWidgets) e.1)) (k, w) rest hp']
        exact ihr
      · have h0 : hasId movedWidgets k = false := by simpa using h
        have hp : (!(hasId movedWidgets (k, w).1)) = true := by simp [h0]
        have hp' : (!(hasId (cid :: movedWidgets) (k, w).1)) = true := by
          rw [heq]
          exact hp
        rw [@List.filter_cons_of_pos _ (fun e => !(hasId movedWidgets e.1)) (k, w) rest hp,
          @List.filter_cons_of_pos _ (fun e => !(hasId (cid :: movedWidgets) e.1)) (k, w) rest hp']
        simp only [List.length_cons]
        omega

theorem checkCollision_length_le (W : Layout) (id : String) (patch : WidgetPatch)
    (cols : List WidgetPosition) (h : checkCollision W id patch = some cols) :
    cols.length ≤ W.length := by
  unfold checkCollision at h
  rcases hg : getW W id with _ | cur
  · rw [hg] at h
    exact absurd h (by simp)
  · rw [hg] at h
    simp only [] at h
    split at h
    · have := List.length_filter_le
        (fun e => !(decide (e.1 = id)) && checkOverlap (mergePos cur patch) e.2) W
      cases h
      simpa using this
    · exact absurd h (by simp)

theorem pushLoopF_fuel_irrelevant (gridSize snapThreshold : ℚ) (W : Layout) (mid : String) :
    ∀ (fuel₁ fuel₂ : Nat) (queue : List QueueItem) (movedWidgets : List String)
      (writes : List (String × WidgetPosition)),
      pushFuel W movedWidgets queue ≤ fuel₁ → pushFuel W movedWidgets queue ≤ fuel₂ →
      pushLoopF gridSize snapThreshold W mid fuel₁ queue movedWidgets writes =
      pushLoopF gridSize snapThreshold W mid fuel₂ queue movedWidgets writes := by
  intro fuel₁
  induction fuel₁ with
  | zero =>
    intro fuel₂ queue movedWidgets writes h1 h2
    cases queue with
    | nil => cases fuel₂ <;> simp [pushLoopF]
    | cons c rest =>
      exfalso
      simp [pushFuel] at h1
  | succ fuel ih =>
    intro fuel₂ queue movedWidgets writes h1 h2
    cases queue with
    | nil => cases fuel₂ <;> simp [pushLoopF]
    | cons current rest =>
      have hq1 : 1 ≤ pushFuel W movedWidgets (current :: rest) := by
        simp only [pushFuel, List.length_cons]
        omega
      cases fuel₂ with
      | zero => omega
      | succ fuel₂ =>
        by_cases hmem : hasId movedWidgets current.id = true
        · simp only [pushLoopF, hmem, if_true]
          refine ih fuel₂ rest movedWidgets writes ?_ ?_ <;>
            · simp only [pushFuel, List.length_cons] at h1 h2 ⊢
              omega
        · have hmemf : hasId movedWidgets current.id = false := by simpa using hmem
          rcases hM : getW W mid with _ | movingWidget
          · simp only [pushLoopF, hmemf, Bool.false_eq_true, if_false, hM]
            refine ih fuel₂ rest movedWidgets writes ?_ ?_ <;>
              · simp only [pushFuel, List.length_cons] at h1 h2 ⊢
                omega
          · rcases hT : getW W current.id with _ | targetWidget
            · simp only [pushLoopF, hmemf, Bool.false_eq_true, if_false, hM, hT]
              refine ih fuel₂ rest movedWidgets writes ?_ ?_ <;>
                · simp only [pushFuel, List.length_cons] at h1 h2 ⊢
                  omega
            · simp only [pushLoopF, hmemf, Bool.false_eq_true, if_false, hM, hT]
              have hdec := unmovedCount_cons_lt W movedWidgets current.id targetWidget hT hmemf
              have hmul :
                  unmovedCount W (current.id :: movedWidgets) * (W.length + 1) + (W.length + 1) ≤
                  unmovedCount W movedWidgets * (W.length + 1) := by
                calc unmovedCount W (current.id :: movedWidgets) * (W.length + 1) +
                      (W.length + 1) =
                    (unmovedCount W (current.id :: movedWidgets) + 1) * (W.length + 1) := by ring
                  _ ≤ unmovedCount W movedWidgets * (W.length + 1) :=
                    Nat.mul_le_mul_right _ hdec
              rcases hc : checkCollision W current.id
                  (toPatch (pushResolved gridSize snapThreshold W current.id movingWidget
                    targetWidget)) with _ | cols
              · simp only [hc]
                refine ih fuel₂ (rest ++ []) (current.id :: movedWidgets) _ ?_ ?_ <;>
                  · simp only [pushFuel, List.length_append, List.length_cons,
                      List.length_nil] at h1 h2 ⊢
                    omega
              · have hlen1 := checkCollision_length_le W current.id _ cols hc
                have hlen2 := List.length_filter_le
                  (fun w => !(hasId (current.id :: movedWidgets) w.id)) cols
                simp only [hc]
                refine ih fuel₂ _ (current.id :: movedWidgets) _ ?_ ?_ <;>
                  · simp only [pushFuel, List.length_append, List.length_cons,
                      List.length_map] at h1 h2 ⊢
                    omega

/-- C2: a single collision-resolution pass terminates: the cascade loop of
pushWidgets finishes within `pushFuel` iterations — an O(n²) budget of
`unmovedCount * (n+1) + |queue|` — so granting the loop any extra iteration
budget never changes its result. Each widget id enters the moved set at most
once (`unmovedCount` strictly drops on every productive iteration) and
widgets are only enqueued while not yet visited (pushWidgets,
GridLayoutManager.tsx 207-298). -/
theorem pushWidgets_pass_terminates (gridSize snapThreshold : ℚ) (W : Layout) (mid : String)
    (queue : List QueueItem) (movedWidgets : List String)
    (writes : List (String × WidgetPosition)) (extra : Nat) :
    pushLoopF gridSize snapThreshold W mid (pushFuel W movedWidgets queue + extra) queue
      movedWidgets writes =
    pushLoopF gridSize snapThreshold W mid (pushFuel W movedWidgets queue) queue
      movedWidgets writes :=
  pushLoopF_fuel_irrelevant gridSize snapThreshold W mid _ _ queue movedWidgets writes
    (Nat.le_add_right _ _) le_rfl

/-! ## C7: neighbor snapping, last neighbor wins -/

/-- Some horizontal edge-snap condition of getSnappedPosition
(GridLayoutManager.tsx 182-185) fires for this neighbor: one of the four edge
distances is below the threshold. -/
def xSnapFires (snapThreshold : ℚ) (proposed w : WidgetPosition) : Bool :=
  decide (|proposed.x - w.x| < snapThreshold) ||
  decide (|proposed.x - (w.x + w.width)| < snapThreshold) ||
  decide (|(proposed.x + proposed.width) - w.x| < snapThreshold) ||
  decide (|(proposed.x + proposed.width) - (w.x + w.width)| < snapThreshold)

/-- Some vertical edge-snap condition of getSnappedPosition
(GridLayoutManager.tsx 193-196) fires for this neighbor. -/
def ySnapFires (snapThreshold : ℚ) (proposed w : WidgetPosition) : Bool :=
  decide (|proposed.y - w.y| < snapThreshold) ||
  decide (|proposed.y - (w.y + w.height)| < snapThreshold) ||
  decide (|(proposed.y + proposed.height) - w.y| < snapThreshold) ||
  decide (|(proposed.y + proposed.height) - (w.y + w.height)| < snapThreshold)

theorem snapStepX_const (snapThreshold : ℚ) (proposed w : WidgetPosition)
    (h : xSnapFires snapThreshold proposed w = true) (s t : ℚ) :
    snapStepX snapThreshold proposed w s = snapStepX snapThreshold proposed w t := by
  simp only [xSnapFires, Bool.or_eq_true, decide_eq_true_eq] at h
  unfold snapStepX
  split_ifs <;> first | rfl | tauto

theorem snapStepY_const (snapThreshold : ℚ) (proposed w : WidgetPosition)
    (h : ySnapFires snapThreshold proposed w = true) (s t : ℚ) :
    snapStepY snapThreshold proposed w s = snapStepY snapThreshold proposed w t := by
  simp only [ySnapFires, Bool.or_eq_true, decide_eq_true_eq] at h
  unfold snapStepY
  split_ifs <;> first | rfl | tauto

theorem snapNeighbors_append (snapThreshold : ℚ) (id : String) (proposed : WidgetPosition)
    (l₁ l₂ : Layout) (sx sy : ℚ) :
    snapNeighbors snapThreshold id proposed (l₁ ++ l₂) sx sy =
      snapNeighbors snapThreshold id proposed l₂
        (snapNeighbors snapThreshold id proposed l₁ sx sy).1
        (snapNeighbors snapThreshold id proposed l₁ sx sy).2 := by
  induction l₁ generalizing sx sy with
  | nil => simp [snapNeighbors]
  | cons e rest ih =>
    by_cases he : e.1 = id
    · simp only [List.cons_append, snapNeighbors, he, if_true]
      exact ih sx sy
    · simp only [List.cons_append, snapNeighbors, he, if_false]
      exact ih _ _

theorem getW_append_some (W rest : Layout) (id : String) (cur : WidgetPosition)
    (h : getW W id = some cur) : getW (W ++ rest) id = some cur := by
  induction W with
  | nil => simp [getW] at h
  | cons e tail ih =>
    obtain ⟨k, w⟩ := e
    by_cases hk : k = id
    · subst hk
      simp only [getW, if_pos rfl] at h
      simpa [getW] using h
    · simp only [getW, hk, if_false] at h
      simpa [getW, hk] using ih h

/-- C7: in getSnappedPosition, when several neighbors' edges are each within
snapThreshold, the neighbor iterated last in the layout's insertion order
determines the final snapped coordinate — appending the neighbor (k, w) whose
snap conditions fire makes the result on each axis equal to w's own snap
value, whatever the earlier widgets contributed — and a neighbor-edge snap
within threshold overwrites the grid-snapped value for that axis: the result
does not depend on the accumulated value (cx, cy), in particular not on the
grid-snapped one (getSnappedPosition, GridLayoutManager.tsx 156-205). -/
theorem getSnappedPosition_last_neighbor_wins (gridSize snapThreshold : ℚ)
    (W : Layout) (id k : String) (current w : WidgetPosition) (position : WidgetPatch)
    (hW : getW W id = some current) (hk : k ≠ id)
    (hx : xSnapFires snapThreshold (mergePos current position) w = true)
    (hy : ySnapFires snapThreshold (mergePos current position) w = true) :
    ∀ cx cy : ℚ,
      (getSnappedPosition gridSize snapThreshold (W ++ [(k, w)]) id position).x? =
        some (snapStepX snapThreshold (mergePos current position) w cx) ∧
      (getSnappedPosition gridSize snapThreshold (W ++ [(k, w)]) id position).y? =
        some (snapStepY snapThreshold (mergePos current position) w cy) := by
  intro cx cy
  unfold getSnappedPosition
  rw [getW_append_some W [(k, w)] id current hW]
  simp only [snapNeighbors_append]
  simp only [snapNeighbors, hk, if_false]
  constructor
  · exact congrArg some (snapStepX_const snapThreshold (mergePos current position) w hx _ cx)
  · exact congrArg some (snapStepY_const snapThreshold (mergePos current position) w hy _ cy)

/-- Witness for C7: the mover "a" with proposed patch at (0, 0) and the
trailing neighbor "n2" at (3, 95): both of n2's first-edge distances are
within the threshold 10, so the final snapped x and y come from n2, not from
the earlier neighbor "n1" and not from the grid. -/
theorem getSnappedPosition_last_neighbor_wins_witness :
    (getSnappedPosition 20 10
        ([("a", ⟨"a", 0, 0, 100, 100⟩), ("n1", ⟨"n1", 7, 88, 50, 50⟩)] ++
          [("n2", ⟨"n2", 3, 95, 50, 50⟩)]) "a"
        { x? := some 0, y? := some 0 }).x? =
      some (snapStepX 10
        (mergePos ⟨"a", 0, 0, 100, 100⟩ { x? := some 0, y? := some 0 })
        ⟨"n2", 3, 95, 50, 50⟩ 0) ∧
    (getSnappedPosition 20 10
        ([("a", ⟨"a", 0, 0, 100, 100⟩), ("n1", ⟨"n1", 7, 88, 50, 50⟩)] ++
          [("n2", ⟨"n2", 3, 95, 50, 50⟩)]) "a"
        { x? := some 0, y? := some 0 }).y? =
      some (snapStepY 10
        (mergePos ⟨"a", 0, 0, 100, 100⟩ { x? := some 0, y? := some 0 })
        ⟨"n2", 3, 95, 50, 50⟩ 0) :=
  getSnappedPosition_last_neighbor_wins 20 10
    [("a", ⟨"a", 0, 0, 100, 100⟩), ("n1", ⟨"n1", 7, 88, 50, 50⟩)] "a" "n2"
    ⟨"a", 0, 0, 100, 100⟩ ⟨"n2", 3, 95, 50, 50⟩ { x? := some 0, y? := some 0 }
    (by simp [getW])
    (by decide)
    (by norm_num [xSnapFires, mergePos])
    (by norm_num [ySnapFires, mergePos])
    0 0

end GaugeFlex
